import Mathlib

/-!
Shallow embedding of `src/django/publicmapping/redistricting/calculators.py`
(The Public Mapping Project / DistrictBuilder scoring calculators).

Modelling conventions:
* Measurement values and calculator arguments are rationals (`ℚ`); the
  source manipulates Python numbers and coerces with `float(...)`, whose
  arithmetic on the inputs the claims exercise is exact.
* A district's geometry (`district.geom`) carries real `area` and `length`
  (perimeter), as consumed by the Schwartzberg calculator; an absent
  geometry is `Option.none`.
* A calculator's `arg_dict` is an association list keyed by argument name;
  `self.arg_dict[argument]` is modelled by first-match lookup, and a missing
  key raises `KeyError`, modelled with `Except`.
* Python's `float` division raises `ZeroDivisionError` on a zero divisor;
  both divisions of the source — Percent's `float(num) / float(den)` and
  Schwartzberg's `perimeter / district.geom.length` — are therefore
  modelled in `Except`, raising exactly when the divisor is zero.
* `compute(self, **kwargs)` mutates only `self.result`; each `compute` is
  modelled as a function from the previous result slot to the new one
  (early `return` leaves the slot unchanged).  The keyword arguments form
  the scope: the source tests membership of the keys `district`, `plan`
  and (in `Threshold`/`Range`) `plans`.
-/

namespace DistrictBuilder

/-- An entry of a calculator's `arg_dict`: the source stores tuples
`('literal', value)` or `('subject', subjectName)`. -/
inductive Arg where
  | literal (v : ℚ)
  | subject (name : String)
deriving DecidableEq, Repr

/-- A calculator's argument dictionary (`self.arg_dict`), keyed by argument
name. -/
abbrev ArgDict := List (String × Arg)

/-- A `ComputedCharacteristic` attached to a district: a (subject name,
numeric value) measurement. -/
structure Characteristic where
  subjectName : String
  number : ℚ
deriving DecidableEq, Repr

/-- A district geometry, exposing the `area` and `length` (perimeter)
properties read by the Schwartzberg calculator. -/
structure Geometry where
  area : ℝ
  length : ℝ

/-- A district: an optional geometry (`district.geom`) and its
`computedcharacteristic_set`. -/
structure District where
  geom : Option Geometry
  characteristics : List Characteristic

/-- A plan; `get_districts_at_version(plan.version, include_geom=False)`
returns `districts`. -/
structure Plan where
  districts : List District

/-- The keyword arguments passed to `compute`: the scope.  The source
dispatches on membership of the keys `district`, `plan`, and — in
`Threshold.compute` and `Range.compute` only — `plans`; `none` is an empty
keyword mapping. -/
inductive Kwargs where
  | district (d : District)
  | plan (p : Plan)
  | plans (p : Plan)
  | none

/-- Exceptions the source can raise out of `compute`: a `KeyError` from
`self.arg_dict[argument]` and a `ZeroDivisionError` from `float` division
by zero. -/
inductive PyErr where
  | keyError (key : String)
  | zeroDivisionError
deriving DecidableEq, Repr

/-- First-match lookup in an `arg_dict`; `none` when the key is absent
(where the source's `self.arg_dict[argument]` would raise `KeyError`). -/
def lookupArg : ArgDict → String → Option Arg
  | [], _ => Option.none
  | (k, a) :: rest, key => if k = key then some a else lookupArg rest key

/-- The non-raising core of `CalculatorBase.get_value` once the argument
tuple has been fetched: a literal returns its stored value; a subject
reference with a district returns `cc[0].number` of
`district.computedcharacteristic_set.filter(subject__name=argval)` or
`None` when the filter is empty; a subject reference without a district
falls through to `return None`. -/
def resolveArg : Arg → Option District → Option ℚ
  | .literal v, _ => some v
  | .subject name, some d =>
      ((d.characteristics.filter (fun c => c.subjectName = name)).head?).map
        Characteristic.number
  | .subject _, Option.none => Option.none

/-- Model of `CalculatorBase.get_value(self, argument, district=None)`:
`(argtype, argval) = self.arg_dict[argument]` raises `KeyError` when the
name is absent; otherwise the value is resolved by `resolveArg`. -/
def get_value (ad : ArgDict) (argument : String) (district : Option District) :
    Except PyErr (Option ℚ) :=
  match lookupArg ad argument with
  | Option.none => .error (.keyError argument)
  | some a => .ok (resolveArg a district)

/-- Model of `Schwartzberg.compute`: only the `district` keyword is recognized; an
absent geometry abstains; otherwise
`r = sqrt(area/pi); perimeter = 2*pi*r; result = perimeter/length`, where
the final `float` division raises `ZeroDivisionError` when the geometry's
`length` is zero (a degenerate geometry), exactly as Percent's division
raises on a zero denominator. -/
noncomputable def Schwartzberg.compute (kw : Kwargs) (result : Option ℝ) :
    Except PyErr (Option ℝ) :=
  match kw with
  | .district d =>
      match d.geom with
      | Option.none => .ok result
      | some g =>
          if g.length = 0 then .error .zeroDivisionError
          else .ok (some (2 * Real.pi * Real.sqrt (g.area / Real.pi) / g.length))
  | _ => .ok result

/-- The argument name `"value%d" % argnum` enumerated by `Sum.compute`. -/
def valueKey (n : ℕ) : String := "value" ++ toString n

/-- The inner `while ('value%d'%argnum) in self.arg_dict` loop of
`Sum.compute` for one district: starting at `argnum`, while the ordinal key
is present, resolve it and add it to the accumulator when it is not `None`,
then move to the next index; stop at the first missing key.  The loop is
written with fuel; `Sum.compute` supplies `arg_dict.length + 1`, enough for
any contiguous run of distinct keys present in the dictionary, mirroring
the finiteness of the Python `dict` that makes the `while` terminate. -/
def sumLoop (ad : ArgDict) (dist : Option District) :
    ℕ → ℕ → ℚ → ℚ
  | 0, _, acc => acc
  | fuel + 1, argnum, acc =>
      match lookupArg ad (valueKey argnum) with
      | Option.none => acc
      | some a =>
          match resolveArg a dist with
          | Option.none => sumLoop ad dist fuel (argnum + 1) acc
          | some q => sumLoop ad dist fuel (argnum + 1) (acc + q)

/-- Model of `Sum.compute`: with a `district` key the one district is processed; with
a `plan` key every district of the plan is processed, all accumulating into
the single result slot, which is first set to `0`; any other keyword
mapping returns with the slot untouched. -/
def Sum.compute (ad : ArgDict) (kw : Kwargs) (result : Option ℚ) :
    Except PyErr (Option ℚ) :=
  match kw with
  | .district d => .ok (some (sumLoop ad (some d) (ad.length + 1) 1 0))
  | .plan p =>
      .ok (some (p.districts.foldl
        (fun acc d => sumLoop ad (some d) (ad.length + 1) 1 acc) 0))
  | _ => .ok result

/-- The `for district in districts` loop of the plan branch of
`Percent.compute`: per district, fetch `numerator` and `denominator`; if
either is `None` the district is skipped; otherwise both running totals are
increased. -/
def percentLoop (ad : ArgDict) :
    List District → ℚ → ℚ → Except PyErr (ℚ × ℚ)
  | [], num, den => .ok (num, den)
  | d :: rest, num, den =>
      match get_value ad "numerator" (some d) with
      | .error e => .error e
      | .ok tmpnum =>
          match get_value ad "denominator" (some d) with
          | .error e => .error e
          | .ok tmpden =>
              match tmpnum, tmpden with
              | some n, some dn => percentLoop ad rest (num + n) (den + dn)
              | _, _ => percentLoop ad rest num den

/-- Model of `Percent.compute`: with a `district` key, resolve `numerator` and
`denominator` and abstain if either is `None`; with a `plan` key,
accumulate both totals over the plan's districts with `percentLoop`; any
other keyword mapping returns with the slot untouched.  The final
`self.result = float(num) / float(den)` raises `ZeroDivisionError` when the
denominator is zero — in the plan branch the totals start at `0` and are
never `None`, so a plan whose every district was skipped divides `0/0`. -/
def Percent.compute (ad : ArgDict) (kw : Kwargs) (result : Option ℚ) :
    Except PyErr (Option ℚ) :=
  match kw with
  | .district d =>
      match get_value ad "numerator" (some d) with
      | .error e => .error e
      | .ok num =>
          match get_value ad "denominator" (some d) with
          | .error e => .error e
          | .ok den =>
              match num, den with
              | some n, some dn =>
                  if dn = 0 then .error .zeroDivisionError
                  else .ok (some (n / dn))
              | _, _ => .ok result
  | .plan p =>
      match percentLoop ad p.districts 0 0 with
      | .error e => .error e
      | .ok (n, dn) =>
          if dn = 0 then .error .zeroDivisionError
          else .ok (some (n / dn))
  | _ => .ok result

/-- The tail of `Threshold.compute` shared by its two live branches:
resolve `value` and `threshold` against the (possibly absent) district,
abstain if either is `None`, else store `float(val) > float(thr)`. -/
def thresholdTail (ad : ArgDict) (district : Option District)
    (result : Option Bool) : Except PyErr (Option Bool) :=
  match get_value ad "value" district with
  | .error e => .error e
  | .ok val =>
      match get_value ad "threshold" district with
      | .error e => .error e
      | .ok thr =>
          match val, thr with
          | some v, some t => .ok (some (decide (v > t)))
          | _, _ => .ok result

/-- Model of `Threshold.compute`: a `district` key binds the district; a `plans` key
(note: not `plan`) merely `pass`es, leaving `district = None`, and the body
still runs; any other keyword mapping returns with the slot untouched. -/
def Threshold.compute (ad : ArgDict) (kw : Kwargs) (result : Option Bool) :
    Except PyErr (Option Bool) :=
  match kw with
  | .district d => thresholdTail ad (some d) result
  | .plans _ => thresholdTail ad Option.none result
  | _ => .ok result

/-- The tail of `Range.compute` shared by its two live branches: resolve
`value`, `min` and `max`, abstain if any is `None`, else store
`float(val) > float(minval) and float(val) < float(maxval)`. -/
def rangeTail (ad : ArgDict) (district : Option District)
    (result : Option Bool) : Except PyErr (Option Bool) :=
  match get_value ad "value" district with
  | .error e => .error e
  | .ok val =>
      match get_value ad "min" district with
      | .error e => .error e
      | .ok minval =>
          match get_value ad "max" district with
          | .error e => .error e
          | .ok maxval =>
              match val, minval, maxval with
              | some v, some lo, some hi =>
                  .ok (some (decide (v > lo) && decide (v < hi)))
              | _, _, _ => .ok result

/-- Model of `Range.compute`: same scope dispatch as `Threshold.compute` (`district`
or the `plans` key with `district = None`), then `rangeTail`. -/
def Range.compute (ad : ArgDict) (kw : Kwargs) (result : Option Bool) :
    Except PyErr (Option Bool) :=
  match kw with
  | .district d => rangeTail ad (some d) result
  | .plans _ => rangeTail ad Option.none result
  | _ => .ok result

/-! ### Basic facts about argument resolution -/

/-- Unfolding of `get_value` when the argument name is missing from the
dictionary: the subscript raises `KeyError`. -/
theorem get_value_lookup_none {ad : ArgDict} {name : String}
    (dist : Option District) (h : lookupArg ad name = Option.none) :
    get_value ad name dist = .error (.keyError name) := by
  simp [get_value, h]

/-- Unfolding of `get_value` when the argument name is present: the entry
is resolved and no exception is possible. -/
theorem get_value_lookup_some {ad : ArgDict} {name : String} {a : Arg}
    (dist : Option District) (h : lookupArg ad name = some a) :
    get_value ad name dist = .ok (resolveArg a dist) := by
  simp [get_value, h]

/-- A successful lookup returns an entry of the dictionary. -/
theorem lookupArg_mem {ad : ArgDict} {key : String} {a : Arg}
    (h : lookupArg ad key = some a) : (key, a) ∈ ad := by
  induction ad with
  | nil => simp [lookupArg] at h
  | cons e rest ih =>
      obtain ⟨k, b⟩ := e
      by_cases hk : k = key
      · subst hk
        simp [lookupArg] at h
        simp [h]
      · simp [lookupArg, hk] at h
        exact List.mem_cons_of_mem _ (ih h)

/-- Claim C7: `get_value` returns the stored value unconditionally for a
literal argument, with or without a district; for a subject reference it
returns unresolved whenever no district is supplied, and with a district it
returns the numeric value of the district's first measurement whose subject
name matches, or unresolved when no measurement matches. -/
theorem C7_get_value_resolution :
    (∀ (ad : ArgDict) (name : String) (v : ℚ) (dist : Option District),
       lookupArg ad name = some (.literal v) →
       get_value ad name dist = .ok (some v)) ∧
    (∀ (ad : ArgDict) (name s : String),
       lookupArg ad name = some (.subject s) →
       get_value ad name Option.none = .ok Option.none) ∧
    (∀ (ad : ArgDict) (name s : String) (d : District),
       lookupArg ad name = some (.subject s) →
       get_value ad name (some d) =
         .ok ((d.characteristics.find? (fun c => c.subjectName = s)).map
           Characteristic.number)) ∧
    (∀ (ad : ArgDict) (name s : String) (d : District),
       lookupArg ad name = some (.subject s) →
       (∀ c ∈ d.characteristics, c.subjectName ≠ s) →
       get_value ad name (some d) = .ok Option.none) := by
  refine ⟨?_, ?_, ?_, ?_⟩
  · intro ad name v dist h
    simp [get_value, h, resolveArg]
  · intro ad name s h
    simp [get_value, h, resolveArg]
  · intro ad name s d h
    simp [get_value, h, resolveArg]
  · intro ad name s d h hnone
    have : d.characteristics.find? (fun c => decide (c.subjectName = s)) = Option.none := by
      rw [List.find?_eq_none]
      intro c hc
      simpa using hnone c hc
    simp [get_value, h, resolveArg, this]

/-- Witness for C7, at concrete inputs: a literal `7` resolves to `7`
without a district; a subject reference without a district is unresolved; a
subject reference with a district picks the first matching measurement
(value `5`, not the later `9`); and with no matching measurement it is
unresolved. -/
theorem C7_get_value_resolution_witness :
    get_value [("x", .literal 7)] "x" Option.none = .ok (some 7) ∧
    get_value [("s", .subject "pop")] "s" Option.none = .ok Option.none ∧
    get_value [("s", .subject "pop")] "s"
      (some ⟨Option.none, [⟨"area", 3⟩, ⟨"pop", 5⟩, ⟨"pop", 9⟩]⟩) = .ok (some 5) ∧
    get_value [("s", .subject "pop")] "s"
      (some ⟨Option.none, [⟨"area", 3⟩]⟩) = .ok Option.none := by
  refine ⟨?_, ?_, ?_, ?_⟩
  · exact C7_get_value_resolution.1 _ "x" 7 _ (by simp +decide [lookupArg])
  · exact C7_get_value_resolution.2.1 _ "s" "pop" (by simp +decide [lookupArg])
  · refine (C7_get_value_resolution.2.2.1 _ "s" "pop" _ (by simp +decide [lookupArg])).trans ?_
    simp +decide [List.find?]
  · exact C7_get_value_resolution.2.2.2 _ "s" "pop" _ (by simp +decide [lookupArg])
      (by simp +decide)

/-- Claim C8: an argument name absent from `arg_dict` is not an abstention:
`get_value` raises `KeyError` on the subscript, and so `Percent`,
`Threshold` and `Range` fault rather than abstain on a district scope when
a required name (`numerator`, `threshold`, `min`) was never configured. -/
theorem C8_missing_argument_name_faults :
    (∀ (ad : ArgDict) (name : String) (dist : Option District),
       lookupArg ad name = Option.none →
       get_value ad name dist = .error (.keyError name)) ∧
    (∀ (ad : ArgDict) (d : District) (r : Option ℚ),
       lookupArg ad "numerator" = Option.none →
       Percent.compute ad (.district d) r = .error (.keyError "numerator")) ∧
    (∀ (ad : ArgDict) (d : District) (r : Option Bool),
       lookupArg ad "value" = Option.none →
       Threshold.compute ad (.district d) r = .error (.keyError "value")) ∧
    (∀ (ad : ArgDict) (d : District) (r : Option Bool) (a : Arg),
       lookupArg ad "value" = some a →
       lookupArg ad "threshold" = Option.none →
       Threshold.compute ad (.district d) r = .error (.keyError "threshold")) ∧
    (∀ (ad : ArgDict) (d : District) (r : Option Bool) (a : Arg),
       lookupArg ad "value" = some a →
       lookupArg ad "min" = Option.none →
       Range.compute ad (.district d) r = .error (.keyError "min")) := by
  refine ⟨?_, ?_, ?_, ?_, ?_⟩
  · intro ad name dist h
    exact get_value_lookup_none dist h
  · intro ad d r h
    simp [Percent.compute, get_value_lookup_none _ h]
  · intro ad d r h
    simp [Threshold.compute, thresholdTail, get_value_lookup_none _ h]
  · intro ad d r a hv h
    simp [Threshold.compute, thresholdTail, get_value_lookup_some _ hv,
      get_value_lookup_none _ h]
  · intro ad d r a hv h
    simp [Range.compute, rangeTail, get_value_lookup_some _ hv,
      get_value_lookup_none _ h]

/-- Witness for C8, at concrete inputs: with an empty `arg_dict` (and with
one lacking `threshold`/`min`), the computations raise `KeyError`. -/
theorem C8_missing_argument_name_faults_witness :
    get_value [] "numerator" Option.none = .error (.keyError "numerator") ∧
    Percent.compute [] (.district ⟨Option.none, []⟩) Option.none =
      .error (.keyError "numerator") ∧
    Threshold.compute [] (.district ⟨Option.none, []⟩) Option.none =
      .error (.keyError "value") ∧
    Threshold.compute [("value", .literal 1)] (.district ⟨Option.none, []⟩)
      Option.none = .error (.keyError "threshold") ∧
    Range.compute [("value", .literal 1)] (.district ⟨Option.none, []⟩)
      Option.none = .error (.keyError "min") := by
  refine ⟨?_, ?_, ?_, ?_, ?_⟩
  · exact C8_missing_argument_name_faults.1 [] "numerator" _ rfl
  · exact C8_missing_argument_name_faults.2.1 [] _ _ rfl
  · exact C8_missing_argument_name_faults.2.2.1 [] _ _ rfl
  · exact C8_missing_argument_name_faults.2.2.2.1 _ _ _ (.literal 1)
      (by simp +decide [lookupArg]) (by simp +decide [lookupArg])
  · exact C8_missing_argument_name_faults.2.2.2.2 _ _ _ (.literal 1)
      (by simp +decide [lookupArg]) (by simp +decide [lookupArg])

/-! ### Schwartzberg compactness -/

/-- Counterexample to claim C5 as stated: a present but degenerate
geometry with perimeter `0` (for instance a point, whose area and length
are both `0.0`) does not get the result slot set to the formula — the
source's `perimeter / district.geom.length` raises `ZeroDivisionError` out
of `compute` instead. -/
theorem C5_counterexample_zero_perimeter_raises :
    Schwartzberg.compute (.district ⟨some ⟨0, 0⟩, []⟩) Option.none =
      .error .zeroDivisionError := by
  simp [Schwartzberg.compute]

/-- Amended claim C5: on a district scope, Schwartzberg abstains when the
geometry is absent; when the geometry is present it raises
`ZeroDivisionError` if the actual perimeter is zero, and otherwise stores
the ratio of the perimeter of the equal-area circle,
`2 * pi * sqrt(area / pi)`, to the actual perimeter; a circle of area `pi`
and perimeter `2 * pi` scores exactly `1`. -/
theorem C5_schwartzberg_ratio :
    (∀ (d : District) (r : Option ℝ), d.geom = Option.none →
       Schwartzberg.compute (.district d) r = .ok r) ∧
    (∀ (d : District) (g : Geometry) (r : Option ℝ), d.geom = some g →
       g.length = 0 →
       Schwartzberg.compute (.district d) r = .error .zeroDivisionError) ∧
    (∀ (d : District) (g : Geometry) (r : Option ℝ), d.geom = some g →
       g.length ≠ 0 →
       Schwartzberg.compute (.district d) r =
         .ok (some (2 * Real.pi * Real.sqrt (g.area / Real.pi) / g.length))) ∧
    (∀ (d : District) (g : Geometry) (r : Option ℝ), d.geom = some g →
       g.area = Real.pi → g.length = 2 * Real.pi →
       Schwartzberg.compute (.district d) r = .ok (some 1)) := by
  refine ⟨?_, ?_, ?_, ?_⟩
  · intro d r h
    simp [Schwartzberg.compute, h]
  · intro d g r h hlen
    simp [Schwartzberg.compute, h, hlen]
  · intro d g r h hlen
    simp [Schwartzberg.compute, h, hlen]
  · intro d g r h harea hlen
    have h2 : (2 : ℝ) * Real.pi ≠ 0 := by positivity
    have hl : g.length ≠ 0 := by
      rw [hlen]; exact h2
    simp [Schwartzberg.compute, h, hl]
    rw [harea, hlen, div_self Real.pi_ne_zero, Real.sqrt_one, mul_one, div_self h2]

/-- Witness for the amended claim C5, at concrete inputs: the unit circle
district scores `1`, a district without geometry leaves the slot unset,
and a zero-perimeter geometry raises. -/
theorem C5_schwartzberg_ratio_witness :
    Schwartzberg.compute (.district ⟨some ⟨Real.pi, 2 * Real.pi⟩, []⟩)
      Option.none = .ok (some 1) ∧
    Schwartzberg.compute (.district ⟨Option.none, []⟩) Option.none =
      .ok Option.none ∧
    Schwartzberg.compute (.district ⟨some ⟨1, 0⟩, []⟩) Option.none =
      .error .zeroDivisionError := by
  exact ⟨C5_schwartzberg_ratio.2.2.2 _ ⟨Real.pi, 2 * Real.pi⟩ _ rfl rfl rfl,
    C5_schwartzberg_ratio.1 _ _ rfl,
    C5_schwartzberg_ratio.2.1 _ ⟨1, 0⟩ _ rfl rfl⟩

/-! ### Threshold and Range comparisons -/

/-- Claim C6: on a district scope with both arguments resolved, Threshold
stores the strict comparison `value > threshold`, and Range stores
`min < value < max` with both bounds exclusive; each abstains (the slot is
left untouched) when any required value is unresolved. -/
theorem C6_threshold_range_strict :
    (∀ (ad : ArgDict) (d : District) (r : Option Bool) (v t : ℚ),
       get_value ad "value" (some d) = .ok (some v) →
       get_value ad "threshold" (some d) = .ok (some t) →
       Threshold.compute ad (.district d) r = .ok (some (decide (v > t)))) ∧
    (∀ (ad : ArgDict) (d : District) (r : Option Bool) (ov ot : Option ℚ),
       get_value ad "value" (some d) = .ok ov →
       get_value ad "threshold" (some d) = .ok ot →
       (ov = Option.none ∨ ot = Option.none) →
       Threshold.compute ad (.district d) r = .ok r) ∧
    (∀ (ad : ArgDict) (d : District) (r : Option Bool) (v lo hi : ℚ),
       get_value ad "value" (some d) = .ok (some v) →
       get_value ad "min" (some d) = .ok (some lo) →
       get_value ad "max" (some d) = .ok (some hi) →
       Range.compute ad (.district d) r = .ok (some (decide (lo < v ∧ v < hi)))) ∧
    (∀ (ad : ArgDict) (d : District) (r : Option Bool) (ov olo ohi : Option ℚ),
       get_value ad "value" (some d) = .ok ov →
       get_value ad "min" (some d) = .ok olo →
       get_value ad "max" (some d) = .ok ohi →
       (ov = Option.none ∨ olo = Option.none ∨ ohi = Option.none) →
       Range.compute ad (.district d) r = .ok r) := by
  refine ⟨?_, ?_, ?_, ?_⟩
  · intro ad d r v t hv ht
    simp [Threshold.compute, thresholdTail, hv, ht]
  · intro ad d r ov ot hv ht habs
    rcases habs with h | h <;> subst h
    · cases ot with
      | none => simp [Threshold.compute, thresholdTail, hv, ht]
      | some t => simp [Threshold.compute, thresholdTail, hv, ht]
    · cases ov with
      | none => simp [Threshold.compute, thresholdTail, hv, ht]
      | some v => simp [Threshold.compute, thresholdTail, hv, ht]
  · intro ad d r v lo hi hv hlo hhi
    simp [Range.compute, rangeTail, hv, hlo, hhi, Bool.decide_and]
  · intro ad d r ov olo ohi hv hlo hhi habs
    rcases habs with h | h | h <;> subst h
    · cases o1 : olo <;> cases o2 : ohi <;>
        simp [Range.compute, rangeTail, hv, hlo, hhi, o1, o2]
    · cases o1 : ov <;> cases o2 : ohi <;>
        simp [Range.compute, rangeTail, hv, hlo, hhi, o1, o2]
    · cases o1 : ov <;> cases o2 : olo <;>
        simp [Range.compute, rangeTail, hv, hlo, hhi, o1, o2]

/-- Witness for C6, at the concrete inputs of the claim: Threshold on
`value = 5, threshold = 5` stores `false` and on
`value = 5.0001, threshold = 5` stores `true`; Range on
`value = 1, min = 1, max = 10` stores `false` and on
`value = 5, min = 1, max = 10` stores `true`; a Threshold whose `value` is
an unmatched subject reference leaves the slot untouched. -/
theorem C6_threshold_range_strict_witness :
    Threshold.compute [("value", .literal 5), ("threshold", .literal 5)]
      (.district ⟨Option.none, []⟩) Option.none = .ok (some false) ∧
    Threshold.compute [("value", .literal (50001 / 10000)), ("threshold", .literal 5)]
      (.district ⟨Option.none, []⟩) Option.none = .ok (some true) ∧
    Range.compute [("value", .literal 1), ("min", .literal 1), ("max", .literal 10)]
      (.district ⟨Option.none, []⟩) Option.none = .ok (some false) ∧
    Range.compute [("value", .literal 5), ("min", .literal 1), ("max", .literal 10)]
      (.district ⟨Option.none, []⟩) Option.none = .ok (some true) ∧
    Threshold.compute [("value", .subject "pop"), ("threshold", .literal 5)]
      (.district ⟨Option.none, []⟩) Option.none = .ok Option.none := by
  refine ⟨?_, ?_, ?_, ?_, ?_⟩
  · refine (C6_threshold_range_strict.1 _ _ _ 5 5
      (by simp +decide [get_value, lookupArg, resolveArg])
      (by simp +decide [get_value, lookupArg, resolveArg])).trans ?_
    norm_num
  · refine (C6_threshold_range_strict.1 _ _ _ (50001 / 10000) 5
      (by simp +decide [get_value, lookupArg, resolveArg])
      (by simp +decide [get_value, lookupArg, resolveArg])).trans ?_
    norm_num
  · refine (C6_threshold_range_strict.2.2.1 _ _ _ 1 1 10
      (by simp +decide [get_value, lookupArg, resolveArg])
      (by simp +decide [get_value, lookupArg, resolveArg])
      (by simp +decide [get_value, lookupArg, resolveArg])).trans ?_
    norm_num
  · refine (C6_threshold_range_strict.2.2.1 _ _ _ 5 1 10
      (by simp +decide [get_value, lookupArg, resolveArg])
      (by simp +decide [get_value, lookupArg, resolveArg])
      (by simp +decide [get_value, lookupArg, resolveArg])).trans ?_
    norm_num
  · exact C6_threshold_range_strict.2.1 _ _ _ Option.none (some 5)
      (by simp +decide [get_value, lookupArg, resolveArg])
      (by simp +decide [get_value, lookupArg, resolveArg])
      (Or.inl rfl)

/-! ### The Sum calculator's ordinal enumeration -/

/-- The contribution of ordinal index `n` to a Sum computation: the
resolved value at `valueN` when the key is present and the value resolves,
`0` otherwise (an unresolved value is skipped, not an abstention). -/
def sumContrib (ad : ArgDict) (dist : Option District) (n : ℕ) : ℚ :=
  match lookupArg ad (valueKey n) with
  | Option.none => 0
  | some a => (resolveArg a dist).getD 0

/-- Refinement of the fuelled `while` loop of `Sum.compute`: when the keys
`value(start)`, …, `value(start+k-1)` are present and `value(start+k)` is
the first missing one, and the fuel covers the run, the loop adds exactly
the contributions of those `k` contiguous indices to the accumulator. -/
theorem sumLoop_run (ad : ArgDict) (dist : Option District) :
    ∀ (k fuel start : ℕ) (acc : ℚ), k < fuel →
      lookupArg ad (valueKey (start + k)) = Option.none →
      (∀ i, i < k → (lookupArg ad (valueKey (start + i))).isSome = true) →
      sumLoop ad dist fuel start acc =
        acc + ((List.range k).map (fun i => sumContrib ad dist (start + i))).sum := by
  intro k
  induction k with
  | zero =>
      intro fuel start acc hfuel hgap _
      obtain ⟨f, rfl⟩ : ∃ f, fuel = f + 1 := ⟨fuel - 1, by omega⟩
      rw [Nat.add_zero] at hgap
      simp [sumLoop, hgap]
  | succ k ih =>
      intro fuel start acc hfuel hgap hrun
      obtain ⟨f, rfl⟩ : ∃ f, fuel = f + 1 := ⟨fuel - 1, by omega⟩
      have h0 : (lookupArg ad (valueKey (start + 0))).isSome = true :=
        hrun 0 (Nat.succ_pos k)
      rw [Nat.add_zero] at h0
      obtain ⟨a, ha⟩ := Option.isSome_iff_exists.mp h0
      have hgap2 : lookupArg ad (valueKey (start + 1 + k)) = Option.none := by
        have he : start + 1 + k = start + (k + 1) := by omega
        rw [he]; exact hgap
      have hrun2 : ∀ i, i < k →
          (lookupArg ad (valueKey (start + 1 + i))).isSome = true := by
        intro i hi
        have he : start + 1 + i = start + (i + 1) := by omega
        rw [he]; exact hrun (i + 1) (by omega)
      have hshift : (fun i => sumContrib ad dist (start + (i + 1)))
          = fun i => sumContrib ad dist (start + 1 + i) := by
        funext i
        congr 1
        omega
      have hsum : ((List.range (k + 1)).map (fun i => sumContrib ad dist (start + i))).sum
          = sumContrib ad dist start
            + ((List.range k).map (fun i => sumContrib ad dist (start + 1 + i))).sum := by
        rw [List.range_succ_eq_map]
        simp only [List.map_cons, List.map_map, List.sum_cons, Nat.add_zero]
        rw [show ((fun i => sumContrib ad dist (start + i)) ∘ Nat.succ)
            = fun i => sumContrib ad dist (start + 1 + i) from by
          funext i
          simp only [Function.comp_apply, Nat.succ_eq_add_one]
          congr 1
          omega]
      cases hres : resolveArg a dist with
      | none =>
          have hc : sumContrib ad dist start = 0 := by
            simp [sumContrib, ha, hres]
          rw [show sumLoop ad dist (f + 1) start acc
              = sumLoop ad dist f (start + 1) acc from by
            simp [sumLoop, ha, hres]]
          rw [ih f (start + 1) acc (by omega) hgap2 hrun2, hsum, hc]
          ring
      | some q =>
          have hc : sumContrib ad dist start = q := by
            simp [sumContrib, ha, hres]
          rw [show sumLoop ad dist (f + 1) start acc
              = sumLoop ad dist f (start + 1) (acc + q) from by
            simp [sumLoop, ha, hres]]
          rw [ih f (start + 1) (acc + q) (by omega) hgap2 hrun2, hsum, hc]
          ring

/-- Claim C4: `Sum.compute` enumerates `value1, value2, …` contiguously
from index `1` and stops at the first missing index: with the first gap at
`value(k+1)`, the result is the sum of the contributions of indices
`1, …, k` only — an entry at any later ordinal index is never read. -/
theorem C4_sum_stops_at_first_gap :
    ∀ (ad : ArgDict) (d : District) (r : Option ℚ) (k : ℕ),
      k ≤ ad.length →
      lookupArg ad (valueKey (k + 1)) = Option.none →
      (∀ i, i < k → (lookupArg ad (valueKey (i + 1))).isSome = true) →
      Sum.compute ad (.district d) r =
        .ok (some (((List.range k).map
          (fun i => sumContrib ad (some d) (i + 1))).sum)) := by
  intro ad d r k hk hgap hrun
  have hgap2 : lookupArg ad (valueKey (1 + k)) = Option.none := by
    rw [Nat.add_comm 1 k]; exact hgap
  have hrun2 : ∀ i, i < k → (lookupArg ad (valueKey (1 + i))).isSome = true := by
    intro i hi
    rw [Nat.add_comm 1 i]; exact hrun i hi
  have h := sumLoop_run ad (some d) k (ad.length + 1) 1 0 (by omega) hgap2 hrun2
  rw [show Sum.compute ad (.district d) r
      = .ok (some (sumLoop ad (some d) (ad.length + 1) 1 0)) from rfl, h]
  rw [show (fun i => sumContrib ad (some d) (1 + i))
      = fun i => sumContrib ad (some d) (i + 1) from by
    funext i
    congr 1
    omega]
  rw [zero_add]

/-- Witness for C4, at the claim's concrete input: the mapping
`value1 = 1, value3 = 5` with no `value2` yields `1` on a district scope
(`value3` is never read). -/
theorem C4_sum_stops_at_first_gap_witness :
    Sum.compute [("value1", .literal 1), ("value3", .literal 5)]
      (.district ⟨Option.none, []⟩) Option.none = .ok (some 1) := by
  have h := C4_sum_stops_at_first_gap
    [("value1", .literal 1), ("value3", .literal 5)] ⟨Option.none, []⟩
    Option.none 1 (by simp)
    (by simp +decide [lookupArg, valueKey])
    (by
      intro i hi
      have hz : i = 0 := by omega
      subst hz
      simp +decide [lookupArg, valueKey])
  refine h.trans ?_
  simp +decide [sumContrib, lookupArg, valueKey, resolveArg, List.range_succ, List.range_zero]

/-! ### Sum always sets its result once the scope is recognized -/

/-- A Sum loop over a dictionary whose every entry is unresolved for the
given district adds nothing to its accumulator. -/
theorem sumLoop_all_unresolved {ad : ArgDict} {dist : Option District}
    (h : ∀ e ∈ ad, resolveArg e.2 dist = Option.none) :
    ∀ (fuel start : ℕ) (acc : ℚ), sumLoop ad dist fuel start acc = acc := by
  intro fuel
  induction fuel with
  | zero => intro start acc; rfl
  | succ f ih =>
      intro start acc
      cases ha : lookupArg ad (valueKey start) with
      | none => simp [sumLoop, ha]
      | some a =>
          have hres : resolveArg a dist = Option.none :=
            h (valueKey start, a) (lookupArg_mem ha)
          simp [sumLoop, ha, hres, ih]

/-- Claim C9: once its scope is recognized (district or plan), Sum always
sets the result slot — it is `0` plus accumulated contributions — even for
an empty argument mapping or when every argument is unresolved, so a
computed sum of zero is indistinguishable from the all-data-missing case. -/
theorem C9_sum_never_abstains :
    (∀ (ad : ArgDict) (d : District) (r : Option ℚ),
       ∃ q, Sum.compute ad (.district d) r = .ok (some q)) ∧
    (∀ (ad : ArgDict) (p : Plan) (r : Option ℚ),
       ∃ q, Sum.compute ad (.plan p) r = .ok (some q)) ∧
    (∀ (d : District) (r : Option ℚ),
       Sum.compute [] (.district d) r = .ok (some 0)) ∧
    (∀ (p : Plan) (r : Option ℚ),
       Sum.compute [] (.plan p) r = .ok (some 0)) ∧
    (∀ (ad : ArgDict) (d : District) (r : Option ℚ),
       (∀ e ∈ ad, resolveArg e.2 (some d) = Option.none) →
       Sum.compute ad (.district d) r = .ok (some 0)) := by
  refine ⟨?_, ?_, ?_, ?_, ?_⟩
  · intro ad d r
    exact ⟨_, rfl⟩
  · intro ad p r
    exact ⟨_, rfl⟩
  · intro d r
    have h := @sumLoop_all_unresolved [] (some d) (by simp) 1 1 0
    simp [Sum.compute, h]
  · intro p r
    have hfix : ∀ (l : List District) (a : ℚ),
        l.foldl (fun acc d => sumLoop [] (some d) 1 1 acc) a = a := by
      intro l
      induction l with
      | nil => intro a; rfl
      | cons d rest ih =>
          intro a
          rw [List.foldl_cons,
            @sumLoop_all_unresolved [] (some d) (by simp) 1 1 a]
          exact ih a
    simp [Sum.compute, hfix]
  · intro ad d r h
    have hl := @sumLoop_all_unresolved ad (some d) h (ad.length + 1) 1 0
    simp [Sum.compute, hl]

/-- Witness for C9, at concrete inputs: a single subject argument matching
no measurement still produces a set result `0`; an empty mapping over a
one-district plan produces `0`. -/
theorem C9_sum_never_abstains_witness :
    Sum.compute [("value1", .subject "pop")]
      (.district ⟨Option.none, []⟩) Option.none = .ok (some 0) ∧
    Sum.compute [] (.plan ⟨[⟨Option.none, []⟩]⟩) Option.none = .ok (some 0) := by
  constructor
  · exact C9_sum_never_abstains.2.2.2.2 _ _ _ (by simp +decide [resolveArg])
  · exact C9_sum_never_abstains.2.2.2.1 _ _

/-! ### The Percent calculator's plan-scope accumulation -/

/-- The per-district (numerator, denominator) pairs a plan-scope Percent
computation keeps: a district contributes its resolved pair, and is skipped
entirely — excluded from both totals — when either value is unresolved. -/
def resolvedPairs (na nd : Arg) : List District → List (ℚ × ℚ) :=
  List.filterMap (fun d =>
    match resolveArg na (some d), resolveArg nd (some d) with
    | some n, some dn => some (n, dn)
    | _, _ => Option.none)

/-- Refinement of the plan loop of `Percent.compute`: with both argument
names configured, the loop never raises and adds the sums of the resolved
pairs' components to the two accumulators independently. -/
theorem percentLoop_run (ad : ArgDict) {na nd : Arg}
    (hna : lookupArg ad "numerator" = some na)
    (hnd : lookupArg ad "denominator" = some nd) :
    ∀ (ds : List District) (num den : ℚ),
      percentLoop ad ds num den =
        .ok (num + ((resolvedPairs na nd ds).map Prod.fst).sum,
             den + ((resolvedPairs na nd ds).map Prod.snd).sum) := by
  intro ds
  induction ds with
  | nil =>
      intro num den
      simp [percentLoop, resolvedPairs]
  | cons d rest ih =>
      intro num den
      cases h1 : resolveArg na (some d) <;> cases h2 : resolveArg nd (some d) <;>
        simp [percentLoop, get_value_lookup_some _ hna, get_value_lookup_some _ hnd,
          h1, h2, ih, resolvedPairs, List.filterMap_cons, add_assoc]

/-- Claim C1: a plan-scope Percent accumulates the resolved numerator and
denominator totals independently over every district, skipping a district
entirely when either value is unresolved, and divides the two totals once
at the end (raising on a zero denominator total, which cannot happen when
some district contributed a nonzero denominator sum). -/
theorem C1_percent_plan_accumulates :
    ∀ (ad : ArgDict) (na nd : Arg) (p : Plan) (r : Option ℚ),
      lookupArg ad "numerator" = some na →
      lookupArg ad "denominator" = some nd →
      Percent.compute ad (.plan p) r =
        (if ((resolvedPairs na nd p.districts).map Prod.snd).sum = 0 then
          .error .zeroDivisionError
        else
          .ok (some (((resolvedPairs na nd p.districts).map Prod.fst).sum /
            ((resolvedPairs na nd p.districts).map Prod.snd).sum))) := by
  intro ad na nd p r hna hnd
  rw [show Percent.compute ad (.plan p) r
      = (match percentLoop ad p.districts 0 0 with
         | .error e => .error e
         | .ok (n, dn) =>
             if dn = 0 then .error .zeroDivisionError
             else .ok (some (n / dn))) from rfl]
  rw [percentLoop_run ad hna hnd p.districts 0 0]
  simp

/-- Witness for C1, at the claim's concrete input: two districts with
(numerator, denominator) measurements `(1, 2)` and `(3, 2)` yield
`(1 + 3) / (2 + 2) = 1`, not the average `(0.5 + 1.5) / 2` of the
per-district ratios computed district-by-district. -/
theorem C1_percent_plan_accumulates_witness :
    Percent.compute [("numerator", .subject "num"), ("denominator", .subject "den")]
      (.plan ⟨[⟨Option.none, [⟨"num", 1⟩, ⟨"den", 2⟩]⟩,
               ⟨Option.none, [⟨"num", 3⟩, ⟨"den", 2⟩]⟩]⟩) Option.none =
      .ok (some 1) := by
  refine (C1_percent_plan_accumulates _ (.subject "num") (.subject "den") _ _
    (by simp +decide [lookupArg]) (by simp +decide [lookupArg])).trans ?_
  simp +decide [resolvedPairs, resolveArg]
  norm_num

/-! ### Exception behaviour on missing data -/

/-- Counterexample to claim C3 as stated: a plan-scope Percent whose single
district has no measurements skips every district, leaves both totals at
`0`, and the final division `float(0)/float(0)` raises `ZeroDivisionError`
out of `compute` — an exception does cross the compute boundary for an
expected missing-data case. -/
theorem C3_counterexample_percent_plan_raises :
    Percent.compute [("numerator", .subject "num"), ("denominator", .subject "den")]
      (.plan ⟨[⟨Option.none, []⟩]⟩) Option.none = .error .zeroDivisionError := by
  simp +decide [Percent.compute, percentLoop, get_value, lookupArg, resolveArg]

/-- The tail of `Threshold.compute` never raises once both argument names
are configured. -/
theorem thresholdTail_ok {ad : ArgDict} {a b : Arg}
    (dist : Option District) (r : Option Bool)
    (ha : lookupArg ad "value" = some a)
    (hb : lookupArg ad "threshold" = some b) :
    ∃ r2, thresholdTail ad dist r = .ok r2 := by
  simp only [thresholdTail, get_value_lookup_some _ ha, get_value_lookup_some _ hb]
  cases resolveArg a dist <;> cases resolveArg b dist <;> exact ⟨_, rfl⟩

/-- The tail of `Range.compute` never raises once all three argument names
are configured. -/
theorem rangeTail_ok {ad : ArgDict} {a b c : Arg}
    (dist : Option District) (r : Option Bool)
    (ha : lookupArg ad "value" = some a)
    (hb : lookupArg ad "min" = some b)
    (hc : lookupArg ad "max" = some c) :
    ∃ r2, rangeTail ad dist r = .ok r2 := by
  simp only [rangeTail, get_value_lookup_some _ ha, get_value_lookup_some _ hb,
    get_value_lookup_some _ hc]
  cases resolveArg a dist <;> cases resolveArg b dist <;> cases resolveArg c dist <;>
    exact ⟨_, rfl⟩

/-- Amended claim C3: expected missing data (an unresolved argument, a
district with no matching measurement, an absent district) causes silent
abstention with no exception crossing `compute` — except in the Percent
plan scope when every district of the plan is skipped for missing data:
both accumulated totals are then zero and the final division raises
`ZeroDivisionError` out of `compute`. -/
theorem C3_missing_data_abstains_except_percent_plan :
    (∀ (ad : ArgDict) (name : String) (a : Arg) (dist : Option District),
       lookupArg ad name = some a → ∃ v, get_value ad name dist = .ok v) ∧
    (∀ (ad : ArgDict) (kw : Kwargs) (r : Option ℚ),
       ∃ r2, Sum.compute ad kw r = .ok r2) ∧
    (∀ (ad : ArgDict) (kw : Kwargs) (r : Option Bool) (a b : Arg),
       lookupArg ad "value" = some a → lookupArg ad "threshold" = some b →
       ∃ r2, Threshold.compute ad kw r = .ok r2) ∧
    (∀ (ad : ArgDict) (kw : Kwargs) (r : Option Bool) (a b c : Arg),
       lookupArg ad "value" = some a → lookupArg ad "min" = some b →
       lookupArg ad "max" = some c →
       ∃ r2, Range.compute ad kw r = .ok r2) ∧
    (∀ (ad : ArgDict) (d : District) (r : Option ℚ) (na nd : Arg),
       lookupArg ad "numerator" = some na →
       lookupArg ad "denominator" = some nd →
       (resolveArg na (some d) = Option.none ∨
         resolveArg nd (some d) = Option.none) →
       Percent.compute ad (.district d) r = .ok r) ∧
    (∀ (ad : ArgDict) (p : Plan) (r : Option ℚ) (na nd : Arg),
       lookupArg ad "numerator" = some na →
       lookupArg ad "denominator" = some nd →
       (∀ d ∈ p.districts,
          resolveArg na (some d) = Option.none ∨
            resolveArg nd (some d) = Option.none) →
       Percent.compute ad (.plan p) r = .error .zeroDivisionError) := by
  refine ⟨?_, ?_, ?_, ?_, ?_, ?_⟩
  · intro ad name a dist h
    exact ⟨_, get_value_lookup_some _ h⟩
  · intro ad kw r
    cases kw <;> exact ⟨_, rfl⟩
  · intro ad kw r a b ha hb
    cases kw with
    | district d => exact thresholdTail_ok (some d) r ha hb
    | plan p => exact ⟨_, rfl⟩
    | plans p => exact thresholdTail_ok Option.none r ha hb
    | none => exact ⟨_, rfl⟩
  · intro ad kw r a b c ha hb hc
    cases kw with
    | district d => exact rangeTail_ok (some d) r ha hb hc
    | plan p => exact ⟨_, rfl⟩
    | plans p => exact rangeTail_ok Option.none r ha hb hc
    | none => exact ⟨_, rfl⟩
  · intro ad d r na nd hna hnd habs
    rw [show Percent.compute ad (.district d) r
        = (match resolveArg na (some d), resolveArg nd (some d) with
           | some n, some dn =>
               if dn = 0 then .error .zeroDivisionError else .ok (some (n / dn))
           | _, _ => .ok r) from by
      simp [Percent.compute, get_value_lookup_some _ hna, get_value_lookup_some _ hnd]]
    rcases habs with h | h
    · cases h2 : resolveArg nd (some d) <;> simp [h, h2]
    · cases h1 : resolveArg na (some d) <;> simp [h, h1]
  · intro ad p r na nd hna hnd hskip
    have hpairs : resolvedPairs na nd p.districts = [] := by
      rw [resolvedPairs, List.filterMap_eq_nil_iff]
      intro d hd
      rcases hskip d hd with h | h
      · cases h2 : resolveArg nd (some d) <;> simp [h, h2]
      · cases h1 : resolveArg na (some d) <;> simp [h, h1]
    rw [C1_percent_plan_accumulates ad na nd p r hna hnd, hpairs]
    simp

/-- Witness for the amended claim C3, at concrete inputs: a subject
reference against a district with no measurements abstains without raising;
Sum, Threshold and Range return normally; a district-scope Percent with an
unresolved numerator abstains; and the all-skipped plan-scope Percent
raises `ZeroDivisionError`. -/
theorem C3_missing_data_abstains_except_percent_plan_witness :
    (∃ v, get_value [("numerator", .subject "num")] "numerator"
      (some ⟨Option.none, []⟩) = .ok v) ∧
    (∃ r2, Sum.compute [] (.district ⟨Option.none, []⟩) Option.none = .ok r2) ∧
    (∃ r2, Threshold.compute [("value", .subject "pop"), ("threshold", .literal 5)]
      (.district ⟨Option.none, []⟩) Option.none = .ok r2) ∧
    (∃ r2, Range.compute
      [("value", .subject "pop"), ("min", .literal 1), ("max", .literal 9)]
      (.district ⟨Option.none, []⟩) Option.none = .ok r2) ∧
    Percent.compute [("numerator", .subject "num"), ("denominator", .subject "den")]
      (.district ⟨Option.none, []⟩) Option.none = .ok Option.none ∧
    Percent.compute [("numerator", .subject "num"), ("denominator", .subject "den")]
      (.plan ⟨[⟨Option.none, []⟩, ⟨Option.none, [⟨"area", 4⟩]⟩]⟩) Option.none =
      .error .zeroDivisionError := by
  refine ⟨?_, ?_, ?_, ?_, ?_, ?_⟩
  · exact C3_missing_data_abstains_except_percent_plan.1 _ "numerator"
      (.subject "num") _ (by simp +decide [lookupArg])
  · exact C3_missing_data_abstains_except_percent_plan.2.1 _ _ _
  · exact C3_missing_data_abstains_except_percent_plan.2.2.1 _ _ _
      (.subject "pop") (.literal 5)
      (by simp +decide [lookupArg]) (by simp +decide [lookupArg])
  · exact C3_missing_data_abstains_except_percent_plan.2.2.2.1 _ _ _
      (.subject "pop") (.literal 1) (.literal 9)
      (by simp +decide [lookupArg]) (by simp +decide [lookupArg])
      (by simp +decide [lookupArg])
  · exact C3_missing_data_abstains_except_percent_plan.2.2.2.2.1 _ _ _
      (.subject "num") (.subject "den")
      (by simp +decide [lookupArg]) (by simp +decide [lookupArg])
      (Or.inl (by simp +decide [resolveArg]))
  · exact C3_missing_data_abstains_except_percent_plan.2.2.2.2.2 _ _ _
      (.subject "num") (.subject "den")
      (by simp +decide [lookupArg]) (by simp +decide [lookupArg])
      (by
        intro d hd
        left
        fin_cases hd <;> simp +decide [resolveArg])

/-! ### Threshold and Range away from the district scope -/

/-- Counterexample to claim C2 as stated: Threshold under the recognized
`plans` scope key, with both arguments literal, does perform its
computation with no district and sets the result slot to a boolean. -/
theorem C2_counterexample_plans_sets_result :
    Threshold.compute [("value", .literal 6), ("threshold", .literal 5)]
      (.plans ⟨[]⟩) Option.none = .ok (some true) := by
  simp +decide [Threshold.compute, thresholdTail, get_value, lookupArg, resolveArg]

/-- Amended claim C2: a plan passed under the `plan` key is an unrecognized
scope for Threshold and Range — compute returns at once with the slot
untouched.  Their recognized plan-like key is the distinct `plans`, whose
branch merely `pass`es: the body runs with no district, so the slot stays
untouched whenever at least one required argument is a subject reference
(unresolvable without a district), but with all-literal arguments the
comparison is computed and the result slot is set to a boolean. -/
theorem C2_threshold_range_plan_scope :
    (∀ (ad : ArgDict) (p : Plan) (r : Option Bool),
       Threshold.compute ad (.plan p) r = .ok r) ∧
    (∀ (ad : ArgDict) (p : Plan) (r : Option Bool),
       Range.compute ad (.plan p) r = .ok r) ∧
    (∀ (ad : ArgDict) (p : Plan) (r : Option Bool) (v t : ℚ),
       lookupArg ad "value" = some (.literal v) →
       lookupArg ad "threshold" = some (.literal t) →
       Threshold.compute ad (.plans p) r = .ok (some (decide (v > t)))) ∧
    (∀ (ad : ArgDict) (p : Plan) (r : Option Bool) (a b : Arg),
       lookupArg ad "value" = some a →
       lookupArg ad "threshold" = some b →
       ((∃ s, a = .subject s) ∨ (∃ s, b = .subject s)) →
       Threshold.compute ad (.plans p) r = .ok r) ∧
    (∀ (ad : ArgDict) (p : Plan) (r : Option Bool) (v lo hi : ℚ),
       lookupArg ad "value" = some (.literal v) →
       lookupArg ad "min" = some (.literal lo) →
       lookupArg ad "max" = some (.literal hi) →
       Range.compute ad (.plans p) r = .ok (some (decide (lo < v ∧ v < hi)))) ∧
    (∀ (ad : ArgDict) (p : Plan) (r : Option Bool) (a b c : Arg),
       lookupArg ad "value" = some a →
       lookupArg ad "min" = some b →
       lookupArg ad "max" = some c →
       ((∃ s, a = .subject s) ∨ (∃ s, b = .subject s) ∨ (∃ s, c = .subject s)) →
       Range.compute ad (.plans p) r = .ok r) := by
  refine ⟨?_, ?_, ?_, ?_, ?_, ?_⟩
  · intro ad p r
    rfl
  · intro ad p r
    rfl
  · intro ad p r v t hv ht
    simp [Threshold.compute, thresholdTail, get_value_lookup_some _ hv,
      get_value_lookup_some _ ht, resolveArg]
  · intro ad p r a b hv ht habs
    rw [show Threshold.compute ad (.plans p) r = thresholdTail ad Option.none r from rfl]
    simp only [thresholdTail, get_value_lookup_some _ hv, get_value_lookup_some _ ht]
    rcases habs with ⟨s, rfl⟩ | ⟨s, rfl⟩
    · cases h2 : resolveArg b Option.none <;> simp [resolveArg, h2]
    · cases h1 : resolveArg a Option.none <;> simp [resolveArg, h1]
  · intro ad p r v lo hi hv hlo hhi
    simp [Range.compute, rangeTail, get_value_lookup_some _ hv,
      get_value_lookup_some _ hlo, get_value_lookup_some _ hhi, resolveArg,
      Bool.decide_and]
  · intro ad p r a b c hv hlo hhi habs
    rw [show Range.compute ad (.plans p) r = rangeTail ad Option.none r from rfl]
    simp only [rangeTail, get_value_lookup_some _ hv, get_value_lookup_some _ hlo,
      get_value_lookup_some _ hhi]
    rcases habs with ⟨s, rfl⟩ | ⟨s, rfl⟩ | ⟨s, rfl⟩
    · cases h2 : resolveArg b Option.none <;> cases h3 : resolveArg c Option.none <;>
        simp [resolveArg, h2, h3]
    · cases h1 : resolveArg a Option.none <;> cases h3 : resolveArg c Option.none <;>
        simp [resolveArg, h1, h3]
    · cases h1 : resolveArg a Option.none <;> cases h2 : resolveArg b Option.none <;>
        simp [resolveArg, h1, h2]

/-- Witness for the amended claim C2, at concrete inputs: under the `plan`
key Threshold and Range leave the slot untouched for any mapping; under
`plans`, all-literal Threshold and Range arguments produce `true`, and a
subject-reference argument leaves the slot untouched. -/
theorem C2_threshold_range_plan_scope_witness :
    Threshold.compute [("value", .literal 6), ("threshold", .literal 5)]
      (.plan ⟨[]⟩) Option.none = .ok Option.none ∧
    Range.compute [("value", .literal 6), ("min", .literal 5), ("max", .literal 7)]
      (.plan ⟨[]⟩) Option.none = .ok Option.none ∧
    Range.compute [("value", .literal 6), ("min", .literal 5), ("max", .literal 7)]
      (.plans ⟨[]⟩) Option.none = .ok (some true) ∧
    Threshold.compute [("value", .subject "pop"), ("threshold", .literal 5)]
      (.plans ⟨[]⟩) Option.none = .ok Option.none := by
  refine ⟨?_, ?_, ?_, ?_⟩
  · exact C2_threshold_range_plan_scope.1 _ _ _
  · exact C2_threshold_range_plan_scope.2.1 _ _ _
  · refine (C2_threshold_range_plan_scope.2.2.2.2.1 _ _ _ 6 5 7
      (by simp +decide [lookupArg]) (by simp +decide [lookupArg])
      (by simp +decide [lookupArg])).trans ?_
    norm_num
  · exact C2_threshold_range_plan_scope.2.2.2.1 _ _ _ (.subject "pop") (.literal 5)
      (by simp +decide [lookupArg]) (by simp +decide [lookupArg])
      (Or.inl ⟨"pop", rfl⟩)

/-! ### Idempotence of compute -/

/-- The value a Schwartzberg computation writes, if any, does not depend on
the previous result slot: the slot is either passed through untouched or
overwritten with a value determined by the scope alone. -/
theorem schwartzberg_shape (kw : Kwargs) :
    (∀ r, Schwartzberg.compute kw r = .ok r) ∨
      (∃ out, ∀ r, Schwartzberg.compute kw r = out) := by
  cases kw with
  | district d =>
      cases hg : d.geom with
      | none =>
          left
          intro r
          simp [Schwartzberg.compute, hg]
      | some g =>
          right
          by_cases hlen : g.length = 0
          · exact ⟨.error .zeroDivisionError,
              fun r => by simp [Schwartzberg.compute, hg, hlen]⟩
          · exact ⟨.ok (some (2 * Real.pi * Real.sqrt (g.area / Real.pi) / g.length)),
              fun r => by simp [Schwartzberg.compute, hg, hlen]⟩
  | plan p => left; intro r; rfl
  | plans p => left; intro r; rfl
  | none => left; intro r; rfl

/-- The outcome of a Sum computation does not depend on the previous result
slot except by passing it through untouched. -/
theorem sum_shape (ad : ArgDict) (kw : Kwargs) :
    (∀ r, Sum.compute ad kw r = .ok r) ∨
      (∃ out, ∀ r, Sum.compute ad kw r = out) := by
  cases kw with
  | district d => right; exact ⟨_, fun r => rfl⟩
  | plan p => right; exact ⟨_, fun r => rfl⟩
  | plans p => left; intro r; rfl
  | none => left; intro r; rfl

/-- The outcome of a Percent computation does not depend on the previous
result slot except by passing it through untouched. -/
theorem percent_shape (ad : ArgDict) (kw : Kwargs) :
    (∀ r, Percent.compute ad kw r = .ok r) ∨
      (∃ out, ∀ r, Percent.compute ad kw r = out) := by
  cases kw with
  | district d =>
      cases hn : get_value ad "numerator" (some d) with
      | error e =>
          right
          exact ⟨.error e, fun r => by simp [Percent.compute, hn]⟩
      | ok num =>
          cases hd : get_value ad "denominator" (some d) with
          | error e =>
              right
              exact ⟨.error e, fun r => by simp [Percent.compute, hn, hd]⟩
          | ok den =>
              cases num with
              | none =>
                  cases den with
                  | none => left; intro r; simp [Percent.compute, hn, hd]
                  | some dn => left; intro r; simp [Percent.compute, hn, hd]
              | some n =>
                  cases den with
                  | none => left; intro r; simp [Percent.compute, hn, hd]
                  | some dn =>
                      right
                      exact ⟨if dn = 0 then .error .zeroDivisionError
                          else .ok (some (n / dn)),
                        fun r => by simp [Percent.compute, hn, hd]⟩
  | plan p => right; exact ⟨_, fun r => rfl⟩
  | plans p => left; intro r; rfl
  | none => left; intro r; rfl

/-- The outcome of the shared Threshold tail does not depend on the
previous result slot except by passing it through untouched. -/
theorem thresholdTail_shape (ad : ArgDict) (dist : Option District) :
    (∀ r, thresholdTail ad dist r = .ok r) ∨
      (∃ out, ∀ r, thresholdTail ad dist r = out) := by
  cases hv : get_value ad "value" dist with
  | error e =>
      right
      exact ⟨.error e, fun r => by simp [thresholdTail, hv]⟩
  | ok val =>
      cases ht : get_value ad "threshold" dist with
      | error e =>
          right
          exact ⟨.error e, fun r => by simp [thresholdTail, hv, ht]⟩
      | ok thr =>
          cases val with
          | none =>
              cases thr with
              | none => left; intro r; simp [thresholdTail, hv, ht]
              | some t => left; intro r; simp [thresholdTail, hv, ht]
          | some v =>
              cases thr with
              | none => left; intro r; simp [thresholdTail, hv, ht]
              | some t =>
                  right
                  exact ⟨.ok (some (decide (t < v))),
                    fun r => by simp [thresholdTail, hv, ht]⟩

/-- The outcome of the shared Range tail does not depend on the previous
result slot except by passing it through untouched. -/
theorem rangeTail_shape (ad : ArgDict) (dist : Option District) :
    (∀ r, rangeTail ad dist r = .ok r) ∨
      (∃ out, ∀ r, rangeTail ad dist r = out) := by
  cases hv : get_value ad "value" dist with
  | error e =>
      right
      exact ⟨.error e, fun r => by simp [rangeTail, hv]⟩
  | ok val =>
      cases hlo : get_value ad "min" dist with
      | error e =>
          right
          exact ⟨.error e, fun r => by simp [rangeTail, hv, hlo]⟩
      | ok minval =>
          cases hhi : get_value ad "max" dist with
          | error e =>
              right
              exact ⟨.error e, fun r => by simp [rangeTail, hv, hlo, hhi]⟩
          | ok maxval =>
              cases val with
              | none => left; intro r; cases minval <;> cases maxval <;>
                  simp [rangeTail, hv, hlo, hhi]
              | some v =>
                  cases minval with
                  | none => left; intro r; cases maxval <;>
                      simp [rangeTail, hv, hlo, hhi]
                  | some lo =>
                      cases maxval with
                      | none => left; intro r; simp [rangeTail, hv, hlo, hhi]
                      | some hi =>
                          right
                          exact ⟨.ok (some (decide (lo < v) && decide (v < hi))),
                            fun r => by simp [rangeTail, hv, hlo, hhi]⟩

/-- Claim C10: for every calculator, a second `compute` with the same scope,
the same argument mapping and unchanged underlying data leaves the same
result in the slot as the first: if the first call succeeded with slot
`r2`, calling again starting from `r2` yields `r2` again. -/
theorem C10_compute_idempotent :
    (∀ (kw : Kwargs) (r r2 : Option ℝ),
       Schwartzberg.compute kw r = .ok r2 → Schwartzberg.compute kw r2 = .ok r2) ∧
    (∀ (ad : ArgDict) (kw : Kwargs) (r r2 : Option ℚ),
       Sum.compute ad kw r = .ok r2 → Sum.compute ad kw r2 = .ok r2) ∧
    (∀ (ad : ArgDict) (kw : Kwargs) (r r2 : Option ℚ),
       Percent.compute ad kw r = .ok r2 → Percent.compute ad kw r2 = .ok r2) ∧
    (∀ (ad : ArgDict) (kw : Kwargs) (r r2 : Option Bool),
       Threshold.compute ad kw r = .ok r2 → Threshold.compute ad kw r2 = .ok r2) ∧
    (∀ (ad : ArgDict) (kw : Kwargs) (r r2 : Option Bool),
       Range.compute ad kw r = .ok r2 → Range.compute ad kw r2 = .ok r2) := by
  refine ⟨?_, ?_, ?_, ?_, ?_⟩
  · intro kw r r2 h
    rcases schwartzberg_shape kw with hfix | ⟨out, hout⟩
    · rw [hfix r] at h
      obtain rfl : r = r2 := by simpa using h
      exact hfix r
    · rw [hout r] at h
      rw [hout r2, h]
  · intro ad kw r r2 h
    rcases sum_shape ad kw with hfix | ⟨out, hout⟩
    · rw [hfix r] at h
      obtain rfl : r = r2 := by simpa using h
      exact hfix r
    · rw [hout r] at h
      rw [hout r2, h]
  · intro ad kw r r2 h
    rcases percent_shape ad kw with hfix | ⟨out, hout⟩
    · rw [hfix r] at h
      obtain rfl : r = r2 := by simpa using h
      exact hfix r
    · rw [hout r] at h
      rw [hout r2, h]
  · intro ad kw r r2 h
    have hshape : (∀ s, Threshold.compute ad kw s = .ok s) ∨
        (∃ out, ∀ s, Threshold.compute ad kw s = out) := by
      cases kw with
      | district d => exact thresholdTail_shape ad (some d)
      | plan p => left; intro s; rfl
      | plans p => exact thresholdTail_shape ad Option.none
      | none => left; intro s; rfl
    rcases hshape with hfix | ⟨out, hout⟩
    · rw [hfix r] at h
      obtain rfl : r = r2 := by simpa using h
      exact hfix r
    · rw [hout r] at h
      rw [hout r2, h]
  · intro ad kw r r2 h
    have hshape : (∀ s, Range.compute ad kw s = .ok s) ∨
        (∃ out, ∀ s, Range.compute ad kw s = out) := by
      cases kw with
      | district d => exact rangeTail_shape ad (some d)
      | plan p => left; intro s; rfl
      | plans p => exact rangeTail_shape ad Option.none
      | none => left; intro s; rfl
    rcases hshape with hfix | ⟨out, hout⟩
    · rw [hfix r] at h
      obtain rfl : r = r2 := by simpa using h
      exact hfix r
    · rw [hout r] at h
      rw [hout r2, h]

/-- Witness for C10, at concrete inputs: repeating a Sum computation from
its own output keeps the output, and likewise for a Threshold computation
that abstained on an unrecognized scope. -/
theorem C10_compute_idempotent_witness :
    Sum.compute [] (.district ⟨Option.none, []⟩) (some 0) = .ok (some 0) ∧
    Threshold.compute [] (.plan ⟨[]⟩) Option.none = .ok Option.none := by
  constructor
  · exact C10_compute_idempotent.2.1 [] _ Option.none (some 0)
      (by simp +decide [Sum.compute, sumLoop, lookupArg, valueKey])
  · exact C10_compute_idempotent.2.2.2.1 [] _ Option.none Option.none rfl

end DistrictBuilder
